import Mathlib

/-!
Shallow embedding of `cryocon_22c_controller/cryocon_controller.py`
(`CryoconController`), the session-oriented client for a CryoCon 22C
temperature controller.

Modelling conventions:
* Python strings are Lean `String`s; the Python builtins `str.strip`,
  `str.lower`, `str.replace`, `float(...)` and `list.index` are modelled by
  the explicit helpers `pyStrip`, `pyLower`, `pyRemoveAll`, `pyFloat` and
  `listIndex` below (structural recursion over `List Char` so that concrete
  evaluations reduce in the kernel).
* Python `float` values are modelled as `Rat`: every numeral the device
  protocol exchanges is a plain decimal literal, and no claim depends on
  binary rounding.
* Device I/O is modelled by an explicit command trace: each method returns,
  besides its result, the `List Cmd` of commands it issued to the transport,
  in order.  Query replies are supplied by an oracle `replies : Cmd → String`.
* A raised Python exception is modelled by `Except PyErr`; dictionary
  indexing with a missing key (including the `None` key) is `PyErr.keyError`,
  `float`/`list.index` failures are `PyErr.valueError`, and the explicit
  `raise RuntimeError(msg)` is `PyErr.runtimeError msg`.
-/

namespace Cryocon

deriving instance DecidableEq for Except

/-- A Python exception, as far as this client can raise one. -/
inductive PyErr where
  /-- `KeyError`: dictionary indexing with an absent key (e.g. `max_temps[None]`). -/
  | keyError : PyErr
  /-- `ValueError`: `float()` on a non-numeric string, or `list.index` miss. -/
  | valueError : PyErr
  /-- `raise RuntimeError(msg)`. -/
  | runtimeError (msg : String) : PyErr
deriving DecidableEq, Repr

/-- One command issued to the transport.  Each constructor stands for one of
the command templates of the source (`'input? {}'`, `'loop {}:setpt {}'`,
`'loop {}:range?'`, `'loop {}:range {}'`, `'loop {}:outpwr?'`,
`'system:lock on/off'`), with the formatted arguments kept structured. -/
inductive Cmd where
  /-- `'input? {}'.format(channel)` — current-reading query (`temperature`). -/
  | inputQuery (ch : String) : Cmd
  /-- `'loop {}:setpt {}'.format(loop, temperature)` — set-point write. -/
  | setpt (loop : String) (v : Rat) : Cmd
  /-- `'loop {}:range?'.format(loop)` — range query (`get_range`). -/
  | rangeQuery (loop : String) : Cmd
  /-- `'loop {}:range {}'.format(loop, rng)` — range write (`set_range`). -/
  | setRange (loop : String) (rng : String) : Cmd
  /-- `'loop {}:outpwr?'.format(loop)` — output-power query (`get_output`). -/
  | outpwrQuery (loop : String) : Cmd
  /-- `'system:lock {}'.format('on' if lock else 'off')` (`lock`). -/
  | lockKeypad (onState : Bool) : Cmd
  /-- The transport-level `disconnect` of the base class. -/
  | closeTransport : Cmd
deriving DecidableEq, Repr

/-- ASCII whitespace as stripped by Python `str.strip()` on device replies. -/
def isSpaceChar (c : Char) : Bool :=
  c == ' ' || c == '\t' || c == '\n' || c == '\r'

/-- Models Python `str.strip()`: drop leading and trailing whitespace. -/
def pyStrip (s : String) : String :=
  String.mk (((s.data.dropWhile isSpaceChar).reverse.dropWhile isSpaceChar).reverse)

/-- Models Python `str.lower()` on the ASCII strings this protocol uses. -/
def pyLower (s : String) : String :=
  String.mk (s.data.map Char.toLower)

/-- Value of a digit string, most significant digit first. -/
def digitsToNat (cs : List Char) : Nat :=
  cs.foldl (fun a c => a * 10 + (c.toNat - 48)) 0

/-- Split a character list at the first occurrence of the decimal point. -/
def splitDot : List Char → List Char × Option (List Char)
  | [] => ([], none)
  | c :: rest =>
    if c == '.' then ([], some rest)
    else
      let (a, b) := splitDot rest
      (c :: a, b)

/-- Magnitude part of a decimal literal: digits with at most one point,
at least one digit overall. -/
def pyFloatMag (cs : List Char) : Option Rat :=
  let (ip, fp?) := splitDot cs
  match fp? with
  | none =>
    if ip.isEmpty || !ip.all Char.isDigit then none
    else some ((digitsToNat ip : Nat) : Rat)
  | some fp =>
    if (ip.isEmpty && fp.isEmpty) || !ip.all Char.isDigit || !fp.all Char.isDigit then
      none
    else
      some ((digitsToNat ip : Rat) + (digitsToNat fp : Rat) / ((10 : Rat) ^ fp.length))

/-- Models the Python builtin `float(s)` on optionally signed plain decimal
literals (the only numeric format the device produces, per the protocol);
any other string raises `ValueError`, modelled as `none`. -/
def pyFloat (s : String) : Option Rat :=
  match (pyStrip s).data with
  | '-' :: rest => (pyFloatMag rest).map (fun v => -v)
  | '+' :: rest => pyFloatMag rest
  | cs => pyFloatMag cs

/-- Fuel-indexed worker for `pyRemoveAll`; the fuel is the length of the
remaining text, which bounds the number of steps. -/
def removeAllAux (pat : List Char) : Nat → List Char → List Char
  | 0, cs => cs
  | _, [] => []
  | fuel + 1, c :: rest =>
    if pat.isPrefixOf (c :: rest) then
      removeAllAux pat fuel (rest.drop (pat.length - 1))
    else
      c :: removeAllAux pat fuel rest

/-- Models Python `s.replace(pat, '')`: remove EVERY non-overlapping
occurrence of `pat` from `s`, scanning left to right (this is what
`temp2float` in the source does with the unit string). -/
def pyRemoveAll (s pat : String) : String :=
  if pat.data.isEmpty then s
  else String.mk (removeAllAux pat.data s.data.length s.data)

/-- Modelled from the spec: removal of only the FIRST occurrence of the
pattern, the operation the spec's parsing sentence describes (worker). -/
def removeFirstAux (pat : List Char) : List Char → List Char
  | [] => []
  | c :: rest =>
    if pat.isPrefixOf (c :: rest) then rest.drop (pat.length - 1)
    else c :: removeFirstAux pat rest

/-- Modelled from the spec: remove the first occurrence of the unit
substring from the raw reply (for comparison with the source's
remove-every-occurrence behaviour). -/
def removeFirstOcc (unitStr : String) (raw : String) : String :=
  if unitStr.data.isEmpty then raw
  else String.mk (removeFirstAux unitStr.data raw.data)

/-- Models Python `list.index(x)`: index of the first element equal to `x`,
raising `ValueError` when no element matches. -/
def listIndex (x : String) : List String → Except PyErr Nat
  | [] => .error .valueError
  | y :: rest =>
    if y == x then .ok 0
    else (listIndex x rest).map (fun n => n + 1)

/-- How Python's `'{}'.format(...)` renders an `Option String`: `None`
prints as the text `"None"`. -/
def pyFormatOpt : Option String → String
  | some s => s
  | none => "None"

/-- The connected session state of `CryoconController`: the four caches
populated by `connect`.

* `channels` is the `self.__channels` dict, an insertion-ordered map from
  canonical channel name (`'a'`, `'b'`) to its alias list (`['cha', ...]`,
  user names appended at connect time).  Python dicts iterate in insertion
  order, so it is modelled as an association list.
* `loops` is the `self.__loops` dict.  `connect` always populates the keys
  `'1'`–`'4'` (each mapped to the lower-cased reply of `loop {}:source?`),
  and the source only ever indexes it with those keys, so it is modelled as
  a total function.
* `maxTemps` is the `self.__max_temps` dict (loop id to converted maximum
  set point); modelled as an association list because `set_temperature`
  indexes it with a possibly-`None` loop, where a lookup miss is a
  `KeyError`.
* `units` is the `self.__units` dict (channel id to unit reply). -/
structure Controller where
  channels : List (String × List String)
  loops : String → String
  maxTemps : List (String × Rat)
  units : List (String × String)

/-- Embeds `get_channel_by_name`: normalize (`strip` then `lower`), then
scan the channel dict in insertion order and return the first canonical
name that equals the query or whose alias list contains it; `None` when
nothing matches. -/
def get_channel_by_name (c : Controller) (name : String) : Option String :=
  let n := pyLower (pyStrip name)
  (c.channels.find? (fun p => n == p.1 || p.2.contains n)).map (fun p => p.1)

/-- The `for loop in ['1','2']` scan of `get_channel_loop`: for each loop,
resolve its recorded source through `get_channel_by_name` and return the
loop on the first match.  `ch` is the (already resolved, possibly `None`)
input channel; the comparison is Python `==` on possibly-`None` values, so
`none == none` matches. -/
def loopScan (c : Controller) (ch : Option String) : List String → Option String
  | [] => none
  | l :: rest =>
    let source := get_channel_by_name c (c.loops l)
    if source == ch then some l else loopScan c ch rest

/-- Embeds `get_channel_loop`: resolve the channel name, then scan loops
`'1'` and `'2'` in ascending order. -/
def get_channel_loop (c : Controller) (channel : String) : Option String :=
  loopScan c (get_channel_by_name c channel) ["1", "2"]

/-- Embeds `temp2float`: resolve the channel (indexing `self.units` with an
unresolved `None` channel is a `KeyError`), remove every occurrence of the
channel's unit string from the reply (`str.replace` with `''`), and parse
the remainder with `float`. -/
def temp2float (c : Controller) (temp : String) (channel : String) : Except PyErr Rat :=
  match get_channel_by_name c channel with
  | none => .error .keyError
  | some ch =>
    match c.units.lookup ch with
    | none => .error .keyError
    | some u =>
      match pyFloat (pyRemoveAll temp u) with
      | none => .error .valueError
      | some v => .ok v

/-- Embeds `temperature`: resolve the channel name (an unresolved name is
NOT an error — `None` is formatted into the `input?` query), issue the
query, and parse the reply with the plain `float` builtin (no unit
stripping).  Returns the result together with the commands issued. -/
def temperature (c : Controller) (replies : Cmd → String) (channel : String) :
    Except PyErr Rat × List Cmd :=
  let ch := get_channel_by_name c channel
  let cmd := Cmd.inputQuery (pyFormatOpt ch)
  match pyFloat (replies cmd) with
  | none => (.error .valueError, [cmd])
  | some v => (.ok v, [cmd])

/-- Embeds `set_temperature`: resolve the controlling loop; indexing
`self.max_temps` with a `None` loop raises `KeyError`; a requested value
strictly above the cached maximum raises
`RuntimeError('Temperature is above maximum.')`; otherwise the single
set-point write is issued. -/
def set_temperature (c : Controller) (channel : String) (temperature : Rat) :
    Except PyErr Unit × List Cmd :=
  match get_channel_loop c channel with
  | none => (.error .keyError, [])
  | some l =>
    match c.maxTemps.lookup l with
    | none => (.error .keyError, [])
    | some maxTemp =>
      if temperature > maxTemp then
        (.error (.runtimeError "Temperature is above maximum."), [])
      else
        (.ok (), [Cmd.setpt l temperature])

/-- Embeds `lock`: issue the keypad lock/unlock command ('on' / 'off'). -/
def lockKeypadTrace (b : Bool) : List Cmd := [Cmd.lockKeypad b]

/-- Embeds `disconnect`: `self.lock(False)` then the base-class transport
disconnect — the unlock is unconditional, the state is not consulted. -/
def disconnect (c : Controller) : List Cmd :=
  lockKeypadTrace false ++ [Cmd.closeTransport]

/-- Embeds `get_range`: issue the range query and normalize the reply with
`lower` then `strip`. -/
def get_range (replies : Cmd → String) (loop : String) : String :=
  pyStrip (pyLower (replies (Cmd.rangeQuery loop)))

/-- Embeds `get_output`: issue the output-power query, `float` the reply
(`none` models the `ValueError` raise), divide by 100. -/
def get_output (replies : Cmd → String) (loop : String) : Option Rat :=
  (pyFloat (replies (Cmd.outpwrQuery loop))).map (fun p => p / 100)

/-- Embeds the inner `change_range` of `auto_adjust_range`: find the current
range in the ordered scale `['low','mid','hi']` (`list.index`, raising
`ValueError` on an unknown range), step by `change`, and return `None`
(no change) when the step leaves the scale. -/
def change_range (curr : String) (change : Int) : Except PyErr (Option String) :=
  let ranges : List String := ["low", "mid", "hi"]
  match listIndex curr ranges with
  | .error e => .error e
  | .ok idx =>
    let pos : Int := (idx : Int) + change
    if pos < 0 || (ranges.length : Int) ≤ pos then
      .ok none
    else
      .ok (some (ranges.getD pos.toNat ""))

/-- The per-channel loop body of `auto_adjust_range`, over the listed
channels in order.  A channel with no controlling loop is skipped; otherwise
the output fraction and range are read, a step of `-1` / `+1` is attempted
below `tLow` / above `tHigh`, and a resulting non-`None` range is written.
A raised exception (`float` failure or unknown range) aborts the loop,
keeping the trace issued so far.  The `self.inst.` attribute prefix of the
source resolves through the external base class; it is modelled as the
controller's own methods, per the spec's session abstraction. -/
def auto_adjust_go (c : Controller) (replies : Cmd → String) (tLow tHigh : Rat) :
    List String → Except PyErr Unit × List Cmd
  | [] => (.ok (), [])
  | ch :: rest =>
    match get_channel_loop c ch with
    | none => auto_adjust_go c replies tLow tHigh rest
    | some l =>
      match get_output replies l with
      | none => (.error .valueError, [Cmd.outpwrQuery l])
      | some output =>
        let rng := get_range replies l
        let step : Except PyErr (Option String) :=
          if output < tLow then change_range rng (-1)
          else if output > tHigh then change_range rng 1
          else .ok none
        match step with
        | .error e => (.error e, [Cmd.outpwrQuery l, Cmd.rangeQuery l])
        | .ok none =>
          let (res, tr) := auto_adjust_go c replies tLow tHigh rest
          (res, Cmd.outpwrQuery l :: Cmd.rangeQuery l :: tr)
        | .ok (some nr) =>
          let (res, tr) := auto_adjust_go c replies tLow tHigh rest
          (res, Cmd.outpwrQuery l :: Cmd.rangeQuery l :: Cmd.setRange l nr :: tr)

/-- Embeds `auto_adjust_range`.  The Python defaults are
`threshold_low = 0.09`, `threshold_high = 0.95`, `channels = None`;
`None` means all registered channels (`self.channels.keys()`). -/
def auto_adjust_range (c : Controller) (replies : Cmd → String) (tLow tHigh : Rat)
    (channels : Option (List String)) : Except PyErr Unit × List Cmd :=
  auto_adjust_go c replies tLow tHigh (channels.getD (c.channels.map (fun p => p.1)))

/-! ## Concrete connected sessions used as witnesses -/

/-- A connected session as `connect` produces it: canonical channels `a`/`b`
with device aliases, loops 1 and 2 both sourced from channel a (`'cha'`),
Kelvin units, and cached maxima.  Channel b therefore has no controlling
loop. -/
def cW : Controller where
  channels := [("a", ["cha"]), ("b", ["chb"])]
  loops := fun l => if l == "1" then "cha" else if l == "2" then "cha" else ""
  maxTemps := [("1", 400), ("2", 350), ("3", 300), ("4", 300)]
  units := [("a", "K"), ("b", "K")]

/-- A connected session whose loop-1 recorded source (`'zzz'`) does not
resolve to any known channel (the spec explicitly allows unresolvable
sources). -/
def cUnresolvable : Controller where
  channels := [("a", ["cha"]), ("b", ["chb"])]
  loops := fun l => if l == "1" then "zzz" else "chb"
  maxTemps := [("1", 400), ("2", 350), ("3", 300), ("4", 300)]
  units := [("a", "K"), ("b", "K")]

/-! ## Claims -/

/-- C1: for every connected session, channel resolving to a controlling
loop, and value strictly above the cached maximum `max_temps[loop]`,
`set_temperature` raises the above-maximum error and issues no command
at all to the transport (in particular no set-point write): the maximum
check precedes any device write. -/
theorem set_temperature_above_max (c : Controller) (ch l : String) (mx v : Rat)
    (hl : get_channel_loop c ch = some l)
    (hm : c.maxTemps.lookup l = some mx)
    (hv : v > mx) :
    set_temperature c ch v = (.error (.runtimeError "Temperature is above maximum."), []) := by
  simp only [set_temperature, hl, hm, if_pos hv]

/-- Witness for C1 at a concrete session: channel `a` controls loop 1 with
maximum 400, and requesting 450 raises with an empty command trace. -/
theorem set_temperature_above_max_witness :
    get_channel_loop cW "a" = some "1" ∧ (cW.maxTemps.lookup "1" = some 400 ∧ (450 : Rat) > 400) ∧
      set_temperature cW "a" 450 =
        (.error (.runtimeError "Temperature is above maximum."), []) :=
  ⟨by decide, ⟨by with_unfolding_all rfl, by norm_num⟩,
    set_temperature_above_max cW "a" "1" 400 450 (by decide) (by with_unfolding_all rfl)
      (by norm_num)⟩

/-- C5: for every connected session and channel for which no loop resolves
as the controlling loop, `set_temperature` raises (the `KeyError` from
indexing `max_temps` with the `None` loop — the raise the spec names
`NoLoopError`) and issues no command, in particular no set-point write. -/
theorem set_temperature_no_loop (c : Controller) (ch : String) (v : Rat)
    (h : get_channel_loop c ch = none) :
    set_temperature c ch v = (.error .keyError, []) := by
  simp only [set_temperature, h]

/-- Witness for C5: in `cW` no loop is sourced from channel b, and setting
its temperature raises with an empty command trace. -/
theorem set_temperature_no_loop_witness :
    get_channel_loop cW "b" = none ∧
      set_temperature cW "b" 10 = (.error .keyError, []) :=
  ⟨by decide, set_temperature_no_loop cW "b" 10 (by decide)⟩

/-- C2 (code bug): the spec requires `get_channel_loop` to return "not
found" immediately for an unresolvable channel name, never returning a loop
whose recorded source is itself unresolvable.  The code instead compares
the unresolved channel (`None`) with each loop's resolved source, and
`None == None` matches: with loop 1's source `'zzz'` unresolvable, the
unresolvable name `'bogus'` is reported as controlling loop 1. -/
theorem get_channel_loop_unresolvable_bug :
    get_channel_by_name cUnresolvable "bogus" = none ∧
      get_channel_by_name cUnresolvable (cUnresolvable.loops "1") = none ∧
      get_channel_loop cUnresolvable "bogus" = some "1" := by decide

/-- C7: for every channel name that resolves, `get_channel_loop` scans only
loops 1 and 2 in ascending order and returns the first loop whose resolved
source equals the resolved channel — so when both sources resolve to the
same channel, loop 1 wins. -/
theorem get_channel_loop_first_match (c : Controller) (name ch : String)
    (h : get_channel_by_name c name = some ch) :
    get_channel_loop c name =
      (if get_channel_by_name c (c.loops "1") = some ch then some "1"
       else if get_channel_by_name c (c.loops "2") = some ch then some "2"
       else none) := by
  simp only [get_channel_loop, loopScan, h]
  by_cases h1 : get_channel_by_name c (c.loops "1") = some ch
  · simp [h1]
  · by_cases h2 : get_channel_by_name c (c.loops "2") = some ch
    · simp [h1, h2]
    · simp [h1, h2]

/-- Witness for C7, the tie-break: in `cW` both loop sources resolve to
channel a, and `get_channel_loop` returns loop 1. -/
theorem get_channel_loop_first_match_witness :
    get_channel_by_name cW (cW.loops "1") = some "a" ∧
      get_channel_by_name cW (cW.loops "2") = some "a" ∧
      get_channel_loop cW "cha" = some "1" := by
  refine ⟨by decide, by decide, ?_⟩
  rw [get_channel_loop_first_match cW "cha" "a" (by decide)]
  decide

/-- C8: `get_channel_by_name` trims and lower-cases its input; it returns
`some ch` only for a registered entry whose canonical token equals the
normalized name or whose alias list contains it, and it returns the `None`
sentinel — a value, never a raised error (the function is total) — exactly
when no registered entry matches case/whitespace-insensitively. -/
theorem get_channel_by_name_characterization (c : Controller) (name : String) :
    (get_channel_by_name c name = none ↔
      ∀ p ∈ c.channels,
        ¬(pyLower (pyStrip name) = p.1 ∨ pyLower (pyStrip name) ∈ p.2)) ∧
    (∀ ch, get_channel_by_name c name = some ch →
      ∃ al, (ch, al) ∈ c.channels ∧
        (pyLower (pyStrip name) = ch ∨ pyLower (pyStrip name) ∈ al)) := by
  constructor
  · simp only [get_channel_by_name, Option.map_eq_none', List.find?_eq_none,
      Bool.or_eq_true, beq_iff_eq, not_or]
    constructor
    · intro h p hp
      have := h p hp
      simp only [List.elem_iff] at this
      tauto
    · intro h p hp
      have := h p hp
      simp only [List.elem_iff]
      tauto
  · intro ch h
    simp only [get_channel_by_name, Option.map_eq_some'] at h
    obtain ⟨p, hp, hch⟩ := h
    refine ⟨p.2, ?_, ?_⟩
    · have := List.mem_of_find?_eq_some hp
      rwa [← hch, Prod.mk.eta] at *
    · have := List.find?_some hp
      simp only [Bool.or_eq_true, beq_iff_eq, List.elem_iff] at this
      rw [← hch]
      tauto

/-- Witness for C8: the alias `'cha'` of channel a, queried with
surrounding whitespace and upper case, resolves to `a`, exhibited through
the characterization. -/
theorem get_channel_by_name_characterization_witness :
    ∃ al, ("a", al) ∈ cW.channels ∧
      (pyLower (pyStrip " CHA ") = "a" ∨ pyLower (pyStrip " CHA ") ∈ al) :=
  (get_channel_by_name_characterization cW " CHA ").2 "a" (by decide)

/-- Reply oracle for the current-reading query: channel a reads `310.5K`
(unit suffix included, as the spec's parsing sentence assumes), and the
malformed command `input? None` — produced for an unresolved channel —
happens to get the numeric reply `123`. -/
def repliesC3 : Cmd → String := fun cmd =>
  match cmd with
  | Cmd.inputQuery "a" => "310.5K"
  | Cmd.inputQuery "None" => "123"
  | _ => ""

/-- C3 counterexample: the claim says `temperature` parses with the
unit-stripping parser and fails with an unknown-channel error for an
unresolvable name.  In fact (i) on the resolvable channel a with reply
`310.5K` the unit-stripping parser yields `310.5` but `temperature` raises
`ValueError` (it calls the plain `float` builtin), and (ii) on the
unresolvable name `'bogus'` no error is raised at all: the query is issued
with the text `None` as the channel and its reply is parsed. -/
theorem temperature_unit_parse_counterexample :
    temp2float cW "310.5K" "a" = .ok (621 / 2) ∧
      (temperature cW repliesC3 "a").1 = .error .valueError ∧
      temperature cW repliesC3 "bogus" = (.ok 123, [Cmd.inputQuery "None"]) :=
  ⟨by with_unfolding_all rfl, by with_unfolding_all rfl, by with_unfolding_all rfl⟩

/-- C3 amended: `temperature` resolves the channel name and issues the
current-reading query, parsing the reply with the plain `float` builtin
(no unit stripping); an unresolvable name is not an error — the query is
issued with the `None` sentinel formatted into the command text and its
reply parsed the same way. -/
theorem temperature_plain_float (c : Controller) (replies : Cmd → String) (name : String) :
    (∀ ch v, get_channel_by_name c name = some ch →
      pyFloat (replies (Cmd.inputQuery ch)) = some v →
      temperature c replies name = (.ok v, [Cmd.inputQuery ch])) ∧
    (∀ v, get_channel_by_name c name = none →
      pyFloat (replies (Cmd.inputQuery "None")) = some v →
      temperature c replies name = (.ok v, [Cmd.inputQuery "None"])) := by
  constructor
  · intro ch v hch hv
    simp only [temperature, hch, pyFormatOpt, hv]
  · intro v hch hv
    simp only [temperature, hch, pyFormatOpt, hv]

/-- Witness for the amended C3: the unresolvable name `'bogus'` raises
nothing — the sentinel query is issued and its numeric reply returned. -/
theorem temperature_plain_float_witness :
    temperature cW repliesC3 "bogus" = (.ok 123, [Cmd.inputQuery "None"]) :=
  (temperature_plain_float cW repliesC3 "bogus").2 123 (by decide)
    (by with_unfolding_all rfl)

/-- C4 counterexample: the claim says `temp2float` removes the FIRST
occurrence of the unit substring and parses the remainder.  With unit `K`
and raw reply `K310.5K`, first-occurrence removal leaves `310.5K`, which is
not a valid float — yet `temp2float` succeeds with `310.5`, because the
source's `str.replace(unit, '')` removes EVERY occurrence. -/
theorem temp2float_first_occurrence_counterexample :
    cW.units.lookup "a" = some "K" ∧
      temp2float cW "K310.5K" "a" = .ok (621 / 2) ∧
      removeFirstOcc "K" "K310.5K" = "310.5K" ∧
      pyFloat "310.5K" = none :=
  ⟨by decide, by with_unfolding_all rfl, by decide, by decide⟩

/-- C4 amended: for every channel with a registered unit string,
`temp2float` removes EVERY occurrence of that exact unit substring
(literal, non-anchored substring removal) and parses the remainder as a
float: it succeeds with `v` exactly when the remainder parses to `v`. -/
theorem temp2float_removes_every_occurrence (c : Controller) (raw name ch u : String)
    (h1 : get_channel_by_name c name = some ch)
    (h2 : c.units.lookup ch = some u) :
    ∀ v : Rat, temp2float c raw name = .ok v ↔ pyFloat (pyRemoveAll raw u) = some v := by
  intro v
  simp only [temp2float, h1, h2]
  cases hp : pyFloat (pyRemoveAll raw u) with
  | none => simp
  | some w => simp

/-- Witness for the amended C4, the spec's round-trip pair: with unit `K`,
both `310.5K` and the unit-prefixed `K310.5` parse to `310.5`. -/
theorem temp2float_removes_every_occurrence_witness :
    temp2float cW "310.5K" "a" = .ok (621 / 2) ∧
      temp2float cW "K310.5" "a" = .ok (621 / 2) :=
  ⟨(temp2float_removes_every_occurrence cW "310.5K" "a" "a" "K" (by decide) (by decide)
      (621 / 2)).mpr (by with_unfolding_all rfl),
    (temp2float_removes_every_occurrence cW "K310.5" "a" "a" "K" (by decide) (by decide)
      (621 / 2)).mpr (by with_unfolding_all rfl)⟩

/-- C9: `disconnect` issues the keypad-unlock command unconditionally and
before the transport close, for every session state — the prior lock state
is not consulted (there is none to consult), so this holds in particular
immediately after `connect`. -/
theorem disconnect_always_unlocks (c : Controller) :
    disconnect c = [Cmd.lockKeypad false, Cmd.closeTransport] := rfl

/-- Stepping down from the bottom of the range scale is clamped to no
change. -/
theorem change_range_low_down : change_range "low" (-1) = .ok none := by
  with_unfolding_all rfl

/-- Stepping up from the top of the range scale is clamped to no change. -/
theorem change_range_hi_up : change_range "hi" 1 = .ok none := by
  with_unfolding_all rfl

/-- Stepping down from the middle of the range scale yields `low`. -/
theorem change_range_mid_down : change_range "mid" (-1) = .ok (some "low") := by
  with_unfolding_all rfl

/-- C6: in a single-channel `auto_adjust_range` pass over a channel whose
loop reports output fraction `o`: at range `low` with `o` below the low
threshold, or at range `hi` with `o` above the high threshold, the step
would leave the scale and no range write is issued (only the two reads);
at range `mid` with `o` below the low threshold, exactly one `set_range`
write with the adjacent range `low` is issued.  The thresholds are assumed
ordered (`tLow ≤ tHigh`), as the defaults 0.09 and 0.95 are. -/
theorem auto_adjust_range_clamp_and_step (c : Controller) (replies : Cmd → String)
    (tLow tHigh : Rat) (ch l : String) (o : Rat)
    (hth : tLow ≤ tHigh)
    (hl : get_channel_loop c ch = some l)
    (ho : get_output replies l = some o) :
    ((get_range replies l = "low" ∧ o < tLow) ∨ (get_range replies l = "hi" ∧ o > tHigh) →
      auto_adjust_range c replies tLow tHigh (some [ch]) =
        (.ok (), [Cmd.outpwrQuery l, Cmd.rangeQuery l])) ∧
    ((get_range replies l = "mid" ∧ o < tLow) →
      auto_adjust_range c replies tLow tHigh (some [ch]) =
        (.ok (), [Cmd.outpwrQuery l, Cmd.rangeQuery l, Cmd.setRange l "low"])) := by
  constructor
  · rintro (⟨hr, hv⟩ | ⟨hr, hv⟩)
    · simp only [auto_adjust_range, Option.getD_some, auto_adjust_go, hl, ho, hr,
        if_pos hv, change_range_low_down]
    · have hnv : ¬ o < tLow := not_lt.mpr (le_of_lt (lt_of_le_of_lt hth hv))
      simp only [auto_adjust_range, Option.getD_some, auto_adjust_go, hl, ho, hr,
        if_neg hnv, if_pos hv, change_range_hi_up]
  · rintro ⟨hr, hv⟩
    simp only [auto_adjust_range, Option.getD_some, auto_adjust_go, hl, ho, hr,
      if_pos hv, change_range_mid_down]

/-- Reply oracle for C6's witness: output power 5 percent, range reported
as `MID ` (upper case with trailing blank, normalized by `get_range`). -/
def repliesMid : Cmd → String := fun cmd =>
  match cmd with
  | Cmd.outpwrQuery _ => "5"
  | Cmd.rangeQuery _ => "MID "
  | _ => ""

/-- Witness for C6 at the defaults: range `mid`, output 0.05 < 0.09 — the
pass issues exactly the two reads and one `set_range(loop 1, low)`. -/
theorem auto_adjust_range_clamp_and_step_witness :
    auto_adjust_range cW repliesMid (9 / 100) (95 / 100) (some ["a"]) =
      (.ok (), [Cmd.outpwrQuery "1", Cmd.rangeQuery "1", Cmd.setRange "1" "low"]) :=
  (auto_adjust_range_clamp_and_step cW repliesMid (9 / 100) (95 / 100) "a" "1" (1 / 20)
      (by norm_num) (by decide) (by with_unfolding_all rfl)).2
    ⟨by decide, by norm_num⟩

/-- Python `list.index` raises `ValueError` when the element is absent. -/
theorem listIndex_not_mem (x : String) (l : List String) (h : ¬ x ∈ l) :
    listIndex x l = .error .valueError := by
  induction l with
  | nil => rfl
  | cons y rest ih =>
    simp only [List.mem_cons, not_or] at h
    have hyx : ¬ (y == x) = true := by
      simp only [beq_iff_eq]
      exact fun hc => h.1 hc.symm
    simp only [listIndex, if_neg hyx, ih h.2, Except.map]

/-- A current range outside the scale `['low','mid','hi']` makes
`change_range` raise `ValueError` (through `list.index`), whatever the
step. -/
theorem change_range_unknown (curr : String) (chg : Int)
    (h : ¬ curr ∈ (["low", "mid", "hi"] : List String)) :
    change_range curr chg = .error .valueError := by
  simp only [change_range, listIndex_not_mem curr _ h]

/-- C10: when a channel's loop reports a range string that is not one of
`low`, `mid`, `hi` (after lower-casing and trimming) while the output is
below the low threshold or above the high one, `auto_adjust_range` raises
(`ValueError` from the range-index lookup) instead of silently skipping the
channel — both reads are issued, then the pass aborts. -/
theorem auto_adjust_range_unknown_range_raises (c : Controller) (replies : Cmd → String)
    (tLow tHigh : Rat) (ch l : String) (o : Rat)
    (hl : get_channel_loop c ch = some l)
    (ho : get_output replies l = some o)
    (hr : ¬ get_range replies l ∈ (["low", "mid", "hi"] : List String))
    (hcond : o < tLow ∨ o > tHigh) :
    auto_adjust_range c replies tLow tHigh (some [ch]) =
      (.error .valueError, [Cmd.outpwrQuery l, Cmd.rangeQuery l]) := by
  by_cases hlo : o < tLow
  · simp only [auto_adjust_range, Option.getD_some, auto_adjust_go, hl, ho,
      if_pos hlo, change_range_unknown _ _ hr]
  · have hv : o > tHigh := hcond.resolve_left hlo
    simp only [auto_adjust_range, Option.getD_some, auto_adjust_go, hl, ho,
      if_neg hlo, if_pos hv, change_range_unknown _ _ hr]

/-- Reply oracle for C10's witness: output power 97 percent, range reported
as the unknown string `HIGH` (the device word for the top range is `HI`). -/
def repliesHigh : Cmd → String := fun cmd =>
  match cmd with
  | Cmd.outpwrQuery _ => "97"
  | Cmd.rangeQuery _ => "HIGH"
  | _ => ""

/-- Witness for C10 at the defaults: output 0.97 > 0.95 with unknown range
`high` makes the pass abort with `ValueError` after the two reads. -/
theorem auto_adjust_range_unknown_range_raises_witness :
    auto_adjust_range cW repliesHigh (9 / 100) (95 / 100) (some ["a"]) =
      (.error .valueError, [Cmd.outpwrQuery "1", Cmd.rangeQuery "1"]) :=
  auto_adjust_range_unknown_range_raises cW repliesHigh (9 / 100) (95 / 100) "a" "1"
    (97 / 100) (by decide) (by with_unfolding_all rfl) (by decide)
    (Or.inr (by norm_num))

end Cryocon
